import Mathlib

/-!
Verification of the GRMTB release-notifier bot (shallow embedding).

The repository contains three variants of the bot:
  * `src/main.py`     — per-(user, repo) polling, tag-based dedup (`check_repo_updates`,
                        `check_all_repos`, `button_callback`, `handle_message`),
  * `src/telegram_bot.py` — one scheduled job per repository, id-based dedup
                        (`check_releases`, `check_now_user`, `add_repo`, `set_interval`,
                        `handle_delete_repo`, `schedule_repo_check`),
  * `src/bot.py`      — an extension of `main.py` (same `BotData.import_data` shape).

Each Lean definition below is a direct translation of the named Python
function; Python dicts are modelled as insertion-ordered association lists,
`None`-able values as `Option`, Python truthiness explicitly, and the HTTP
boundary as a `PollOutcome` describing the one response a call to the
GitHub API produced.
-/

set_option autoImplicit false

namespace GRMTB

/-! ## Insertion-ordered association lists (Python `dict` semantics) -/

/-- `d.get(k)`: first value stored under `k`, if any. -/
def alGet {α : Type} : List (String × α) → String → Option α
  | [], _ => none
  | (k', v) :: t, k => if k' = k then some v else alGet t k

/-- `d[k] = v`: update in place when the key exists (keeping dict order),
append at the end otherwise — exactly Python's insertion-order behaviour. -/
def alSet {α : Type} : List (String × α) → String → α → List (String × α)
  | [], k, v => [(k, v)]
  | (k', v') :: t, k, v =>
    if k' = k then (k, v) :: t else (k', v') :: alSet t k v

/-- `d.pop(k, None)` / `del d[k]`: drop every entry stored under `k`. -/
def alPop {α : Type} : List (String × α) → String → List (String × α)
  | [], _ => []
  | (k', v') :: t, k => if k' = k then alPop t k else (k', v') :: alPop t k

/-- Number of entries stored under `k` (used to state that the scheduler
keeps a single job per repository). -/
def countKey {α : Type} : List (String × α) → String → Nat
  | [], _ => 0
  | (k', _) :: t, k => (if k' = k then 1 else 0) + countKey t k

/-! ## Release descriptors and poll outcomes -/

/-- The fields of one GitHub "latest release" JSON body that the dedup logic
reads: `data.get("id")` (the stable numeric release id) and
`data.get('tag_name')` (the human display tag).  Either may be absent. -/
structure Release where
  id : Option Nat
  tagName : Option String
  deriving DecidableEq, Repr

/-- The observable result of one HTTP call to
`/repos/{repo}/releases/latest`:
  * `ok rel`          — status 200 with a parsed body,
  * `httpStatus code` — a non-200 status line (404, 401, 500, …),
  * `netError`        — a timeout, connection failure or malformed body
                        (an exception raised by the HTTP/JSON library). -/
inductive PollOutcome where
  | ok (rel : Release)
  | httpStatus (code : Nat)
  | netError
  deriving DecidableEq, Repr

/-- `o` is a successful (HTTP 200) poll. -/
def PollOutcome.isOk : PollOutcome → Bool
  | .ok _ => true
  | _ => false

/-- Python truthiness of `last_release` (a nullable string):
`None` and `""` are falsy. -/
def truthyOptStr : Option String → Bool
  | none => false
  | some s => s ≠ ""

/-- Python truthiness of `release_id` (a nullable integer):
`None` and `0` are falsy. -/
def truthyOptNat : Option Nat → Bool
  | none => false
  | some n => n ≠ 0

/-! ## `main.py` — `check_repo_updates` (lines 641-728)

The per-(user, repo) check.  Reads `bot_data.last_releases.get(key)` (the
stored marker, `none` when absent), compares it with the fetched
`tag_name`, and on `force or last_release != release_tag` writes the tag
back and saves; a notification is sent only when `not force and
last_release` (truthiness).  Every non-200 status and every exception is
only logged. -/

/-- Result of one `check_repo_updates` call: the marker stored under
`f"{user_id}_{repo}"` afterwards, whether a release notification was sent
to the user, and whether `save_data` ran. -/
structure MainCheckResult where
  marker : Option String
  notified : Bool
  saved : Bool
  deriving DecidableEq, Repr

/-- `check_repo_updates` (`main.py:641-728`), as a function of the stored
marker for the `f"{user_id}_{repo}"` key, the HTTP outcome and the `force`
flag.  `hasToken = false` models `user_id not in bot_data.user_tokens`,
which returns before any fetch. -/
def check_repo_updates (hasToken : Bool) (marker : Option String)
    (outcome : PollOutcome) (force : Bool) : MainCheckResult :=
  if hasToken = false then ⟨marker, false, false⟩
  else
    match outcome with
    | .ok rel =>
      if force = true ∨ marker ≠ rel.tagName then
        ⟨rel.tagName, (!force) && truthyOptStr marker, true⟩
      else
        ⟨marker, false, false⟩
    | .httpStatus _ => ⟨marker, false, false⟩
    | .netError => ⟨marker, false, false⟩

/-- A sequence of non-forced `check_repo_updates` polls for one
(user, repo) pair, threading the stored marker; returns the final marker
and the number of notifications sent. -/
def runPolls (marker : Option String) : List PollOutcome → Option String × Nat
  | [] => (marker, 0)
  | o :: rest =>
    let r := check_repo_updates true marker o false
    let (m', n) := runPolls r.marker rest
    (m', (if r.notified then 1 else 0) + n)

example : check_repo_updates true (some "v1.0")
    (.ok ⟨some 102, some "v1.0"⟩) false = ⟨some "v1.0", false, false⟩ := by decide

example : check_repo_updates true (some "v1.0")
    (.ok ⟨some 102, some "v1.1"⟩) false = ⟨some "v1.1", true, true⟩ := by decide

example : check_repo_updates true none
    (.ok ⟨some 101, some "v1.0"⟩) false = ⟨some "v1.0", false, true⟩ := by decide

example : check_repo_updates true none
    (.ok ⟨some 101, some "v1.0"⟩) true = ⟨some "v1.0", false, true⟩ := by decide

/-! ## `telegram_bot.py` — `check_releases` (lines 145-200)

The scheduled per-repository job.  It selects one token for the repository
(`get_a_valid_token_for_repo`), takes `global_repo_info` = the repo record
of the **first** user (in dict order) tracking the repository, and on a
200 response compares the fetched numeric `id` with that single record's
`last_release_id`; if `release_id and release_id != last_known_id`, it
writes `release_id` into **every** tracking user's record and sends each
of them a message, then saves.  A 404 returns, any other error raises
`RequestException` which is caught and logged. -/

/-- The users tracking one repository, in `bot_data["users"]` dict order,
each with the `last_release_id` of their record for that repository. -/
abbrev Trackers := List (String × Option Nat)

/-- Result of one `check_releases` job run: the trackers' records
afterwards, the users a notification was sent to (dict order), and
whether `save_data` ran. -/
structure ReleasesResult where
  trackers : Trackers
  notifiedUsers : List String
  saved : Bool
  deriving DecidableEq, Repr

/-- `check_releases` (`telegram_bot.py:145-200`).  `token = none` models
`get_a_valid_token_for_repo` finding no token (early return);
`trackers = []` models `global_repo_info` staying `None` (the job removes
itself, no subscription state is touched). -/
def check_releases (token : Option String) (trackers : Trackers)
    (outcome : PollOutcome) : ReleasesResult :=
  match token with
  | none => ⟨trackers, [], false⟩
  | some _ =>
    match trackers with
    | [] => ⟨trackers, [], false⟩
    | (_, firstMarker) :: _ =>
      match outcome with
      | .ok rel =>
        if truthyOptNat rel.id = true ∧ rel.id ≠ firstMarker then
          ⟨trackers.map (fun p => (p.1, rel.id)), trackers.map Prod.fst, true⟩
        else
          ⟨trackers, [], false⟩
      | .httpStatus _ => ⟨trackers, [], false⟩
      | .netError => ⟨trackers, [], false⟩

example : check_releases (some "t") [("1", none), ("2", some 5)]
    (.ok ⟨some 5, some "v"⟩)
    = ⟨[("1", some 5), ("2", some 5)], ["1", "2"], true⟩ := by decide

example : check_releases (some "t") [("1", some 5), ("2", none)]
    (.ok ⟨some 5, some "v"⟩)
    = ⟨[("1", some 5), ("2", none)], [], false⟩ := by decide

/-! ## `telegram_bot.py` — `check_now_user` (lines 202-249)

The per-user manual check: iterates the user's own repos in dict order,
fetching each.  A 401 sends a "token invalid" message and `return`s —
aborting the whole loop before `save_data` and the summary message.  Any
other `HTTPError` (404 included, via `raise_for_status`) or generic
exception is caught per repository and the loop continues.  On 200, if
`release_id and release_id != last_known_id` the user's record for that
repo is updated and a message sent; `checked_repos` is incremented only
when no exception occurred. -/

/-- Result of `check_now_user`: the user's repo records afterwards
(in-memory — earlier iterations' updates survive an abort), the repos for
which a new-release message was sent, the final `checked_repos` counter,
whether the 401 early-return fired, and how many repos were left
unexamined because of it. -/
structure CheckNowResult where
  repos : List (String × Option Nat)
  notifiedRepos : List String
  checked : Nat
  tokenAbort : Bool
  unprocessed : Nat
  deriving DecidableEq, Repr

/-- The loop of `check_now_user` (`telegram_bot.py:219-246`), over the
user's repos paired with the HTTP outcome each fetch produced. -/
def check_now_user :
    List ((String × Option Nat) × PollOutcome) → CheckNowResult
  | [] => ⟨[], [], 0, false, 0⟩
  | ((repo, marker), outcome) :: rest =>
    match outcome with
    | .httpStatus code =>
      if code = 401 then
        ⟨(repo, marker) :: rest.map Prod.fst, [], 0, true, rest.length⟩
      else
        let r := check_now_user rest
        ⟨(repo, marker) :: r.repos, r.notifiedRepos, r.checked,
          r.tokenAbort, r.unprocessed⟩
    | .netError =>
      let r := check_now_user rest
      ⟨(repo, marker) :: r.repos, r.notifiedRepos, r.checked,
        r.tokenAbort, r.unprocessed⟩
    | .ok rel =>
      if truthyOptNat rel.id = true ∧ rel.id ≠ marker then
        let r := check_now_user rest
        ⟨(repo, rel.id) :: r.repos, repo :: r.notifiedRepos, r.checked + 1,
          r.tokenAbort, r.unprocessed⟩
      else
        let r := check_now_user rest
        ⟨(repo, marker) :: r.repos, r.notifiedRepos, r.checked + 1,
          r.tokenAbort, r.unprocessed⟩

example : check_now_user
    [(("o/r1", none), .httpStatus 401), (("o/r2", some 1), .ok ⟨some 2, some "v"⟩)]
    = ⟨[("o/r1", none), ("o/r2", some 1)], [], 0, true, 1⟩ := by decide

example : check_now_user [(("o/r", none), .ok ⟨some 7, some "v"⟩)]
    = ⟨[("o/r", some 7)], ["o/r"], 1, false, 0⟩ := by decide

/-! ## `telegram_bot.py` — job scheduling and subscription lifecycle -/

/-- The scheduler's jobs: apscheduler job id → interval hours. -/
abbrev Jobs := List (String × Nat)

/-- `job_id = f"check_{repo_name.replace('/', '_')}"` (`telegram_bot.py:254`);
a single-character `str.replace` is a character map. -/
def jobId (repo : String) : String :=
  "check_" ++ String.mk (repo.data.map (fun c => if c = '/' then '_' else c))

/-- `schedule_repo_check` (`telegram_bot.py:253-267`): if a job for the
repository exists it is rescheduled to the new interval, otherwise a new
job is added. -/
def schedule_repo_check (jobs : Jobs) (repo : String) (hours : Nat) : Jobs :=
  if (alGet jobs (jobId repo)).isSome then alSet jobs (jobId repo) hours
  else jobs ++ [(jobId repo, hours)]

/-- One user's record for one tracked repository
(`user_data["repos"][repo_name]`, `telegram_bot.py:327-331`; the `url`
field is display-only and omitted). -/
structure RepoInfo where
  intervalHours : Nat
  lastReleaseId : Option Nat
  deriving DecidableEq, Repr

/-- One user's `repos` dict: repo name → record, in insertion order. -/
abbrev UserRepos := List (String × RepoInfo)

/-- The shared mutable state of `telegram_bot.py` touched by the
subscription lifecycle: `bot_data["users"]` (user id → repos dict, in
dict order) and the scheduler's jobs. -/
structure TgState where
  users : List (String × UserRepos)
  jobs : Jobs
  deriving DecidableEq, Repr

/-- `get_or_create_user` (`telegram_bot.py:63-72`): appends an empty repo
dict for an unknown user id. -/
def get_or_create_user (s : TgState) (uid : String) : TgState :=
  if (alGet s.users uid).isSome then s
  else { s with users := s.users ++ [(uid, [])] }

/-- The `last_release_id` the second fetch of `add_repo`
(`telegram_bot.py:318-325`) produces: the body's `id` on a 200, `None` on
anything else (non-200 status or exception). -/
def fetchedLatestId : PollOutcome → Option Nat
  | .ok rel => rel.id
  | _ => none

/-- `add_repo` (`telegram_bot.py:293-335`), after URL parsing: if the user
already tracks the repository nothing changes; if the validation fetch of
`/repos/{repo}` is anything but a 200 the conversation ends; otherwise the
repo record is created with `interval_hours = 24` and `last_release_id`
taken from the current `/releases/latest` response, and
`schedule_repo_check(..., 24)` runs. -/
def add_repo (s : TgState) (uid : String) (repo : String)
    (validate : PollOutcome) (latest : PollOutcome) : TgState :=
  let urepos := (alGet s.users uid).getD []
  if (alGet urepos repo).isSome then s
  else
    match validate with
    | .ok _ =>
      { users := alSet s.users uid (alSet urepos repo ⟨24, fetchedLatestId latest⟩),
        jobs := schedule_repo_check s.jobs repo 24 }
    | .httpStatus _ => s
    | .netError => s

/-- The body of `set_interval`'s loop over `bot_data["users"].items()`
(`telegram_bot.py:420-422`): if this user tracks the repository, overwrite
the `interval_hours` field of their record. -/
def setIntervalRepos (repo : String) (hours : Nat) (rs : UserRepos) : UserRepos :=
  match alGet rs repo with
  | some info => alSet rs repo ⟨hours, info.lastReleaseId⟩
  | none => rs

/-- `set_interval` (`telegram_bot.py:407-431`): with `1 <= hours <= 720`
and the caller tracking the repository, sets `interval_hours = hours` in
**every** user's record for that repository and reschedules the single job
to `hours`. -/
def set_interval (s : TgState) (uid : String) (repo : String)
    (hours : Nat) : TgState :=
  if 1 ≤ hours ∧ hours ≤ 720 then
    let urepos := (alGet s.users uid).getD []
    if (alGet urepos repo).isSome then
      { users := s.users.map (fun p => (p.1, setIntervalRepos repo hours p.2)),
        jobs := schedule_repo_check s.jobs repo hours }
    else s
  else s

/-- `is_repo_tracked_by_anyone` (`telegram_bot.py:269-273`). -/
def is_repo_tracked_by_anyone (users : List (String × UserRepos))
    (repo : String) : Bool :=
  users.any (fun p => (alGet p.2 repo).isSome)

/-- `handle_delete_repo` (`telegram_bot.py:371-384`) followed by
`unschedule_if_unused` (`telegram_bot.py:275-280`): deletes the caller's
whole repo record (marker and interval included) and removes the job when
no user tracks the repository any more. -/
def handle_delete_repo (s : TgState) (uid : String) (repo : String) : TgState :=
  let urepos := (alGet s.users uid).getD []
  if (alGet urepos repo).isSome then
    let users' := alSet s.users uid (alPop urepos repo)
    { users := users',
      jobs := if is_repo_tracked_by_anyone users' repo then s.jobs
              else alPop s.jobs (jobId repo) }
  else s

/-! ## `main.py` — subscription lifecycle and the poll loop -/

/-- The `bot_data` fields of `main.py` the subscription lifecycle touches:
`repos` (user id → list of repo names), `check_intervals` and
`last_releases` (both keyed by `f"{user_id}_{repo}"`). -/
structure MainState where
  repos : List (String × List String)
  check_intervals : List (String × Nat)
  last_releases : List (String × Option String)
  deriving DecidableEq, Repr

/-- The `f"{user_id}_{repo}"` key. -/
def mkey (uid repo : String) : String := uid ++ "_" ++ repo

/-- The `delete_` branch of `button_callback` (`main.py:245-255`): removes
the repo from the user's list and pops both the interval and the
last-release marker for the pair. -/
def main_delete_repo (s : MainState) (uid repo : String) : MainState :=
  match alGet s.repos uid with
  | some lst =>
    if repo ∈ lst then
      { repos := alSet s.repos uid (lst.erase repo),
        check_intervals := alPop s.check_intervals (mkey uid repo),
        last_releases := alPop s.last_releases (mkey uid repo) }
    else s
  | none => s

/-- The `awaiting == 'repo'` branch of `handle_message`
(`main.py:520-541`), after the `owner/repo` format check: appends the repo
to the user's list and sets the interval to 24; `last_releases` is not
touched. -/
def main_add_repo (s : MainState) (uid repo : String) : MainState :=
  let lst := (alGet s.repos uid).getD []
  if repo ∈ lst then s
  else
    { repos := alSet s.repos uid (lst ++ [repo]),
      check_intervals := alSet s.check_intervals (mkey uid repo) 24,
      last_releases := s.last_releases }

/-- One (user, repo) pair visited by the loop of `check_all_repos`. -/
structure Pair where
  userId : String
  repo : String
  deriving DecidableEq, Repr

/-- Result of one pass of the `check_all_repos` loop body
(`main.py:730-747`) over the (user, repo) pairs of `bot_data.repos`:
the `last_releases` map afterwards, the pairs for which an HTTP fetch to
the hosting platform was dispatched (in visiting order), and the pairs
that were sent a notification. -/
structure CycleResult where
  markers : List (String × Option String)
  fetches : List Pair
  notifiedPairs : List Pair
  deriving DecidableEq, Repr

/-- One scan of `check_all_repos` (`main.py:730-747`): every (user, repo)
pair is visited; a due pair (`last_check is None` or the interval elapsed)
calls `check_repo_updates`, which fetches exactly once iff the user has a
token.  Processing of each pair is independent: `check_repo_updates`
catches every exception internally, so no outcome stops the scan. -/
def check_all_cycle (hasToken : String → Bool) (due : Pair → Bool)
    (outcome : Pair → PollOutcome) :
    List Pair → List (String × Option String) → CycleResult
  | [], markers => ⟨markers, [], []⟩
  | p :: rest, markers =>
    if due p then
      if hasToken p.userId then
        let key := mkey p.userId p.repo
        let r := check_repo_updates true (alGet markers key).join (outcome p) false
        let c := check_all_cycle hasToken due outcome rest (alSet markers key r.marker)
        ⟨c.markers, p :: c.fetches,
          (if r.notified then [p] else []) ++ c.notifiedPairs⟩
      else
        check_all_cycle hasToken due outcome rest markers
    else
      check_all_cycle hasToken due outcome rest markers

/-! ## `main.py` / `bot.py` — `BotData.import_data` -/

/-- The fields `BotData.import_data` (`main.py:85-101`) assigns, i.e. the
shape `json.loads` must have produced for the success path.  (`bot.py`'s
variant at lines 102-122 adds gitlab tokens, repo types and two channel
ids around the same structure; the control flow is identical.) -/
structure ImportPayload where
  users : List (String × String)
  repos : List (String × List String)
  user_tokens : List (String × String)
  check_intervals : List (String × Nat)
  last_releases : List (String × Option String)
  bot_public : Bool
  special_users : List Int
  banned_users : List Int
  deriving DecidableEq, Repr

/-- The full persisted store of `main.py`'s `BotData`. -/
structure BotDataState where
  users : List (String × String)
  repos : List (String × List String)
  user_tokens : List (String × String)
  check_intervals : List (String × Nat)
  last_releases : List (String × Option String)
  bot_public : Bool
  special_users : List Int
  banned_users : List Int
  deriving DecidableEq, Repr

/-- Result of `import_data`: the store afterwards, the returned boolean,
and whether `save_data` (the persistence write) ran. -/
structure ImportResult where
  state : BotDataState
  returned : Bool
  savedToDisk : Bool
  deriving DecidableEq, Repr

/-- `BotData.import_data` (`main.py:85-101`).  `parsed` is the result of
the `json.loads(data_str)` boundary: `none` when the input string is not
valid JSON (`json.loads` raises before any field is assigned, the
`except` branch returns `False`); on `some d` every field is replaced and
`save_data` runs before returning `True`. -/
def import_data (s : BotDataState) (parsed : Option ImportPayload) :
    ImportResult :=
  match parsed with
  | none => ⟨s, false, false⟩
  | some d =>
    ⟨⟨d.users, d.repos, d.user_tokens, d.check_intervals, d.last_releases,
      d.bot_public, d.special_users, d.banned_users⟩, true, true⟩

/-! # Helper lemmas about the dict model -/

theorem alGet_alSet_self {α : Type} (l : List (String × α)) (k : String) (v : α) :
    alGet (alSet l k v) k = some v := by
  induction l with
  | nil => simp [alSet, alGet]
  | cons p t ih =>
    obtain ⟨k', v'⟩ := p
    by_cases h : k' = k
    · simp [alSet, alGet, h]
    · simp [alSet, alGet, h, ih]

theorem alGet_alPop_self {α : Type} (l : List (String × α)) (k : String) :
    alGet (alPop l k) k = none := by
  induction l with
  | nil => simp [alPop, alGet]
  | cons p t ih =>
    obtain ⟨k', v'⟩ := p
    by_cases h : k' = k
    · simp [alPop, h, ih]
    · simp [alPop, alGet, h, ih]

theorem alGet_append_single {α : Type} (l : List (String × α)) (k : String)
    (v : α) (h : alGet l k = none) : alGet (l ++ [(k, v)]) k = some v := by
  induction l with
  | nil => simp [alGet]
  | cons p t ih =>
    obtain ⟨k', v'⟩ := p
    by_cases hk : k' = k
    · simp [alGet, hk] at h
    · simp [alGet, hk] at h ⊢
      exact ih h

theorem alGet_map_snd {α β : Type} (g : α → β) (l : List (String × α))
    (k : String) :
    alGet (l.map (fun p => (p.1, g p.2))) k = (alGet l k).map g := by
  induction l with
  | nil => simp [alGet]
  | cons p t ih =>
    obtain ⟨k', v'⟩ := p
    by_cases h : k' = k
    · simp [alGet, h]
    · simp [alGet, h, ih]

theorem countKey_alSet {α : Type} (l : List (String × α)) (k : String) (v : α) :
    countKey (alSet l k v) k = max (countKey l k) 1 := by
  induction l with
  | nil => simp [alSet, countKey]
  | cons p t ih =>
    obtain ⟨k', v'⟩ := p
    by_cases h : k' = k
    · simp [alSet, countKey, h]
    · simp [alSet, countKey, h, ih]

theorem countKey_of_alGet_none {α : Type} (l : List (String × α)) (k : String)
    (h : alGet l k = none) : countKey l k = 0 := by
  induction l with
  | nil => simp [countKey]
  | cons p t ih =>
    obtain ⟨k', v'⟩ := p
    by_cases hk : k' = k
    · simp [alGet, hk] at h
    · simp [alGet, hk] at h
      simp [countKey, hk, ih h]

theorem countKey_pos_of_alGet_some {α : Type} (l : List (String × α))
    (k : String) (h : (alGet l k).isSome = true) : 1 ≤ countKey l k := by
  induction l with
  | nil => simp [alGet] at h
  | cons p t ih =>
    obtain ⟨k', v'⟩ := p
    by_cases hk : k' = k
    · simp [countKey, hk]
    · simp [alGet, hk] at h
      simp [countKey, hk]
      exact ih h

theorem countKey_append_single {α : Type} (l : List (String × α)) (k : String)
    (v : α) : countKey (l ++ [(k, v)]) k = countKey l k + 1 := by
  induction l with
  | nil => simp [countKey]
  | cons p t ih =>
    obtain ⟨k', v'⟩ := p
    simp [countKey, ih]
    omega

theorem alGet_schedule_self (jobs : Jobs) (repo : String) (hours : Nat) :
    alGet (schedule_repo_check jobs repo hours) (jobId repo) = some hours := by
  unfold schedule_repo_check
  by_cases h : (alGet jobs (jobId repo)).isSome
  · simp [h, alGet_alSet_self]
  · simp [h]
    exact alGet_append_single _ _ _ (by
      cases hj : alGet jobs (jobId repo) with
      | none => rfl
      | some x => simp [hj] at h)

/-- Fetch dispatch of one `check_all_repos` scan is exactly one fetch per
due (user, repo) pair whose user holds a token, whatever each fetch
returns (shared by the C6 and C8 developments). -/
theorem check_all_cycle_fetches (hasToken : String → Bool) (due : Pair → Bool)
    (outcome : Pair → PollOutcome) (pairs : List Pair)
    (markers : List (String × Option String)) :
    (check_all_cycle hasToken due outcome pairs markers).fetches
      = pairs.filter (fun p => due p && hasToken p.userId) := by
  induction pairs generalizing markers with
  | nil => simp [check_all_cycle]
  | cons p rest ih =>
    by_cases hd : due p = true
    · by_cases ht : hasToken p.userId = true
      · simp [check_all_cycle, hd, ht, ih, List.filter_cons]
      · simp [check_all_cycle, hd, ht, ih, List.filter_cons]
    · simp [check_all_cycle, hd, ih, List.filter_cons]

/-- Once the stored marker of `main.py` equals a release's tag, any number
of further non-forced polls all returning that release change nothing and
notify nobody. -/
theorem runPolls_stable (rel : Release) (n : Nat) :
    runPolls rel.tagName (List.replicate n (.ok rel)) = (rel.tagName, 0) := by
  induction n with
  | zero => simp [runPolls]
  | succ n ih =>
    simp only [List.replicate_succ, runPolls, check_repo_updates]
    simp [ih]

/-! # Claim theorems -/

/-- C7: for every poll whose outcome is not a successful fetch (HTTP 404,
401/403, any other non-2xx status, a timeout or a malformed body), neither
`check_repo_updates` (`main.py:722-728`) nor `check_releases`
(`telegram_bot.py:166-200`) mutates any last-seen marker, emits any
notification, or writes the store: the subscription state after the poll
equals the state before it. -/
theorem c7_error_isolation (hasToken : Bool) (marker : Option String)
    (force : Bool) (token : Option String) (trackers : Trackers)
    (outcome : PollOutcome) (h : outcome.isOk = false) :
    check_repo_updates hasToken marker outcome force = ⟨marker, false, false⟩ ∧
    check_releases token trackers outcome = ⟨trackers, [], false⟩ := by
  cases outcome with
  | ok rel => simp [PollOutcome.isOk] at h
  | httpStatus code =>
    refine ⟨?_, ?_⟩
    · cases hasToken <;> simp [check_repo_updates]
    · cases token <;> cases trackers <;> simp [check_releases]
  | netError =>
    refine ⟨?_, ?_⟩
    · cases hasToken <;> simp [check_repo_updates]
    · cases token <;> cases trackers <;> simp [check_releases]

/-- C7 witness: a concrete HTTP 500 poll leaves a concrete state of both
engines untouched. -/
theorem c7_witness :
    check_repo_updates true (some "v1") (.httpStatus 500) false
      = ⟨some "v1", false, false⟩ ∧
    check_releases (some "tok") [("1", some 3)] (.httpStatus 500)
      = ⟨[("1", some 3)], [], false⟩ :=
  c7_error_isolation true (some "v1") false (some "tok") [("1", some 3)]
    (.httpStatus 500) (by decide)

/-- C10: for every import payload that is not valid JSON (`json.loads`
raises before the first field assignment of `BotData.import_data`,
`main.py:85-101`), the import returns `False` and leaves every field of
the store exactly as it was, with no persistence write performed. -/
theorem c10_import_atomic (s : BotDataState) :
    (import_data s none).state.users = s.users ∧
    (import_data s none).state.repos = s.repos ∧
    (import_data s none).state.user_tokens = s.user_tokens ∧
    (import_data s none).state.check_intervals = s.check_intervals ∧
    (import_data s none).state.last_releases = s.last_releases ∧
    (import_data s none).state.bot_public = s.bot_public ∧
    (import_data s none).state.special_users = s.special_users ∧
    (import_data s none).state.banned_users = s.banned_users ∧
    (import_data s none).returned = false ∧
    (import_data s none).savedToDisk = false :=
  ⟨rfl, rfl, rfl, rfl, rfl, rfl, rfl, rfl, rfl, rfl⟩

/-- Unfolding one step of `runPolls`. -/
theorem runPolls_cons (marker : Option String) (o : PollOutcome)
    (rest : List PollOutcome) :
    runPolls marker (o :: rest)
      = ((runPolls (check_repo_updates true marker o false).marker rest).1,
         (if (check_repo_updates true marker o false).notified then 1 else 0)
           + (runPolls (check_repo_updates true marker o false).marker rest).2) := by
  simp [runPolls]

/-- C1 counterexample: in `check_releases` (`telegram_bot.py:171-197`) the
dedup decision reads only the **first** tracking user's marker.  Here
subscriber `"2"`'s stored marker already equals the fetched release id
`5`, yet because the first tracker's marker differs, a notification is
emitted to `"2"` (and their marker is rewritten) — refuting "once the
subscriber's stored marker equals the fetched release identifier, a
further poll with the same identifier performs no marker mutation and
emits no notification". -/
theorem c1_counterexample :
    alGet [("1", (none : Option Nat)), ("2", some 5)] "2" = some (some 5) ∧
    (check_releases (some "t") [("1", none), ("2", some 5)]
        (.ok ⟨some 5, some "v"⟩)).notifiedUsers = ["1", "2"] := by decide

/-- C1 amended: per-subscriber dedup idempotence holds in `main.py`'s
`check_repo_updates`: once the stored marker equals the fetched tag a
further non-forced poll is a strict no-op, and across any sequence of
polls all returning one identical release at most one notification is
ever sent to the subscriber.  In `telegram_bot.py`'s `check_releases`
idempotence holds only at the whole-repository level (the dedup key is
the first tracker's marker): repeating a poll with the same release on
the committed state emits nothing and changes nothing. -/
theorem c1_dedup_idempotence :
    (∀ rel : Release, check_repo_updates true rel.tagName (.ok rel) false
        = ⟨rel.tagName, false, false⟩) ∧
    (∀ (marker : Option String) (rel : Release) (n : Nat),
        (runPolls marker (List.replicate n (.ok rel))).2 ≤ 1) ∧
    (∀ (token : Option String) (trackers : Trackers) (rel : Release),
        (check_releases token (check_releases token trackers (.ok rel)).trackers
            (.ok rel)).notifiedUsers = [] ∧
        (check_releases token (check_releases token trackers (.ok rel)).trackers
            (.ok rel)).trackers
          = (check_releases token trackers (.ok rel)).trackers) := by
  refine ⟨fun rel => by simp [check_repo_updates], ?_, ?_⟩
  · intro marker rel n
    cases n with
    | zero => simp [runPolls]
    | succ n =>
      by_cases h : marker = rel.tagName
      · subst h
        rw [runPolls_stable]
        simp
      · rw [List.replicate_succ, runPolls_cons]
        have h2 : check_repo_updates true marker (.ok rel) false
            = ⟨rel.tagName, truthyOptStr marker, true⟩ := by
          simp [check_repo_updates, h]
        rw [h2]
        simp [runPolls_stable rel n]
        cases truthyOptStr marker <;> simp
  · intro token trackers rel
    cases token with
    | none => simp [check_releases]
    | some tok =>
      cases trackers with
      | nil => simp [check_releases]
      | cons p t =>
        obtain ⟨u0, m0⟩ := p
        by_cases hc : truthyOptNat rel.id = true ∧ rel.id ≠ m0
        · have h1 : check_releases (some tok) ((u0, m0) :: t) (.ok rel)
              = ⟨(u0, rel.id) :: t.map (fun p => (p.1, rel.id)),
                 u0 :: t.map Prod.fst, true⟩ := by
            simp [check_releases, hc]
          rw [h1]
          simp [check_releases]
        · have h1 : check_releases (some tok) ((u0, m0) :: t) (.ok rel)
              = ⟨(u0, m0) :: t, [], false⟩ := by
            simp [check_releases, hc]
          rw [h1]
          simp [check_releases, hc]

/-- C2 counterexample: `main.py`'s dedup (`check_repo_updates`,
`main.py:656-669`) stores and compares only `tag_name`.  The stored
marker `"v1.0"` came from an earlier release; a poll now fetches a
**different** release id `102` that reuses the same tag, and no
notification is emitted and nothing is written — tag equality alone
suppressed a notification for a release with a new id, refuting the
claim. -/
theorem c2_counterexample :
    check_repo_updates true (some "v1.0") (.ok ⟨some 102, some "v1.0"⟩) false
      = ⟨some "v1.0", false, false⟩ := by decide

/-- C2 amended: only `telegram_bot.py` keys dedup on the stable release
id: the whole result of `check_releases` is determined by the fetched id
(never the tag), and whenever the truthy fetched id differs from the
(first tracker's) marker every tracking user is notified.  `main.py`'s
`check_repo_updates` instead is determined by the display tag alone, so a
release with a new id but a reused tag is not notified there. -/
theorem c2_dedup_key :
    (∀ (token : Option String) (trackers : Trackers) (rel rel' : Release),
        rel.id = rel'.id →
        check_releases token trackers (.ok rel)
          = check_releases token trackers (.ok rel')) ∧
    (∀ (marker : Option String) (rel rel' : Release) (force : Bool),
        rel.tagName = rel'.tagName →
        check_repo_updates true marker (.ok rel) force
          = check_repo_updates true marker (.ok rel') force) ∧
    (∀ (tok u0 : String) (m0 : Option Nat) (rest : Trackers) (rel : Release),
        truthyOptNat rel.id = true → rel.id ≠ m0 →
        (check_releases (some tok) ((u0, m0) :: rest) (.ok rel)).notifiedUsers
          = u0 :: rest.map Prod.fst) := by
  refine ⟨?_, ?_, ?_⟩
  · intro token trackers rel rel' h
    cases token with
    | none => simp [check_releases]
    | some tok =>
      cases trackers with
      | nil => simp [check_releases]
      | cons p t => simp only [check_releases, h]
  · intro marker rel rel' force h
    simp only [check_repo_updates, h]
  · intro tok u0 m0 rest rel h1 h2
    simp [check_releases, h1, h2]

/-- C2 witness: two fetches with equal ids and different tags are treated
identically by `check_releases`; two fetches with equal tags and
different ids are treated identically by `check_repo_updates`; a truthy
id differing from the first marker notifies every tracker. -/
theorem c2_witness :
    check_releases (some "t") [("1", some 1)] (.ok ⟨some 2, some "a"⟩)
      = check_releases (some "t") [("1", some 1)] (.ok ⟨some 2, some "b"⟩) ∧
    check_repo_updates true (some "x") (.ok ⟨some 1, some "v"⟩) false
      = check_repo_updates true (some "x") (.ok ⟨some 2, some "v"⟩) false ∧
    (check_releases (some "t") [("1", some 1), ("2", some 2)]
        (.ok ⟨some 9, some "v"⟩)).notifiedUsers = ["1", "2"] :=
  ⟨c2_dedup_key.1 (some "t") [("1", some 1)] ⟨some 2, some "a"⟩
      ⟨some 2, some "b"⟩ rfl,
   c2_dedup_key.2.1 (some "x") ⟨some 1, some "v"⟩ ⟨some 2, some "v"⟩ false rfl,
   c2_dedup_key.2.2 "t" "1" (some 1) [("2", some 2)] ⟨some 9, some "v"⟩
      (by decide) (by decide)⟩

/-- C3 counterexample: a forced manual check in `main.py`
(`check_repo_updates(..., force=True)`, reached from `button_callback`'s
`check_now` branch, `main.py:257-280`) on a subscriber whose marker is
null fetches release id 101 / tag `v1.0`, **sets the marker** — but sends
no notification: the notification is guarded by `not force and
last_release` (`main.py:672`), so `force=True` suppresses every
notification, refuting "a manual check with force=true ... sends that
subscriber a notification reporting the currently-known latest
release". -/
theorem c3_counterexample :
    (check_repo_updates true none (.ok ⟨some 101, some "v1.0"⟩) true).notified
      = false ∧
    (check_repo_updates true none (.ok ⟨some 101, some "v1.0"⟩) true).marker
      = some "v1.0" := by decide

/-- C3 amended: in `main.py` a forced check always rewrites the marker to
the fetched tag and saves, and **never** notifies (force suppresses
notification entirely, bypassing the dedup comparison rather than only
the suppress-initial rule).  The manual check that does report the
current state to a null-marker subscriber is `telegram_bot.py`'s
`check_now_user`: it sends the notification and sets the marker to the
fetched release id. -/
theorem c3_forced_check :
    (∀ (marker : Option String) (rel : Release),
        check_repo_updates true marker (.ok rel) true
          = ⟨rel.tagName, false, true⟩) ∧
    (∀ (repo : String) (rel : Release), truthyOptNat rel.id = true →
        check_now_user [((repo, none), .ok rel)]
          = ⟨[(repo, rel.id)], [repo], 1, false, 0⟩) := by
  refine ⟨fun marker rel => by simp [check_repo_updates], ?_⟩
  intro repo rel h
  cases hid : rel.id with
  | none => simp [truthyOptNat, hid] at h
  | some n =>
    rw [hid] at h
    simp [check_now_user, hid, h]

/-- C3 witness: the forced `main.py` check at a concrete release and the
`check_now_user` manual check at a concrete release. -/
theorem c3_witness :
    check_repo_updates true none (.ok ⟨some 101, some "v1.0"⟩) true
      = ⟨some "v1.0", false, true⟩ ∧
    check_now_user [(("acme/widget", none), .ok ⟨some 101, some "v1.0"⟩)]
      = ⟨[("acme/widget", some 101)], ["acme/widget"], 1, false, 0⟩ :=
  ⟨c3_forced_check.1 none ⟨some 101, some "v1.0"⟩,
   c3_forced_check.2 "acme/widget" ⟨some 101, some "v1.0"⟩ (by decide)⟩

/-- C4 counterexample: a non-forced scheduled poll in `telegram_bot.py`
(`check_releases`) for a repository whose (only) subscription has a null
marker returns release id 5 — and a notification **is** emitted to that
subscriber, refuting "records the release's identifier as the new marker
and emits no notification to that subscriber (the initialization
case)". -/
theorem c4_counterexample :
    (check_releases (some "t") [("1", none)]
        (.ok ⟨some 5, some "v1"⟩)).notifiedUsers = ["1"] := by decide

/-- C4 amended: the silent initialization case exists only in `main.py`:
a non-forced poll from a null marker records the fetched tag without
notifying, and a later poll returning the same tag changes nothing.  In
`telegram_bot.py` a scheduled poll from a null (first-tracker) marker
notifies every tracker, and `add_repo` instead pre-initializes a new
subscription's marker to the currently fetched latest release id (null
only when that fetch found no release). -/
theorem c4_null_marker_init :
    (∀ (rel : Release) (t : String), rel.tagName = some t →
        check_repo_updates true none (.ok rel) false = ⟨some t, false, true⟩) ∧
    (∀ (rel : Release) (t : String), rel.tagName = some t →
        check_repo_updates true (some t) (.ok rel) false
          = ⟨some t, false, false⟩) ∧
    (∀ (tok u0 : String) (rest : Trackers) (rel : Release),
        truthyOptNat rel.id = true →
        (check_releases (some tok) ((u0, none) :: rest) (.ok rel)).notifiedUsers
          = u0 :: rest.map Prod.fst) ∧
    (∀ (s : TgState) (uid repo : String) (rel0 : Release)
        (latest : PollOutcome),
        alGet ((alGet s.users uid).getD []) repo = none →
        alGet ((alGet (add_repo s uid repo (.ok rel0) latest).users uid).getD [])
            repo = some ⟨24, fetchedLatestId latest⟩) := by
  refine ⟨?_, ?_, ?_, ?_⟩
  · intro rel t h
    simp [check_repo_updates, truthyOptStr, h]
  · intro rel t h
    simp [check_repo_updates, h]
  · intro tok u0 rest rel h
    cases hid : rel.id with
    | none => simp [truthyOptNat, hid] at h
    | some n =>
      rw [hid] at h
      simp [check_releases, hid, h]
  · intro s uid repo rel0 latest h
    simp [add_repo, h, alGet_alSet_self]

/-- C4 witness: the `main.py` initialization and repeat polls, the
`telegram_bot.py` null-marker notification, and the `add_repo`
pre-initialization, all at concrete inputs. -/
theorem c4_witness :
    check_repo_updates true none (.ok ⟨some 5, some "v1"⟩) false
      = ⟨some "v1", false, true⟩ ∧
    check_repo_updates true (some "v1") (.ok ⟨some 5, some "v1"⟩) false
      = ⟨some "v1", false, false⟩ ∧
    (check_releases (some "t") [("1", none)]
        (.ok ⟨some 5, some "v1"⟩)).notifiedUsers = ["1"] ∧
    alGet ((alGet (add_repo ⟨[("A", [])], []⟩ "A" "o/r"
        (.ok ⟨some 5, some "v1"⟩) (.ok ⟨some 5, some "v1"⟩)).users "A").getD [])
        "o/r" = some ⟨24, some 5⟩ :=
  ⟨c4_null_marker_init.1 ⟨some 5, some "v1"⟩ "v1" rfl,
   c4_null_marker_init.2.1 ⟨some 5, some "v1"⟩ "v1" rfl,
   c4_null_marker_init.2.2.1 "t" "1" [] ⟨some 5, some "v1"⟩ (by decide),
   c4_null_marker_init.2.2.2 ⟨[("A", [])], []⟩ "A" "o/r" ⟨some 5, some "v1"⟩
      (.ok ⟨some 5, some "v1"⟩) (by decide)⟩

/-- C5 counterexample: subscribers A (configured interval 6h) and B (24h)
end up sharing one job that polls every **24** hours, not the minimum 6:
A adds `o/r` and sets its interval to 6 (`set_interval` overwrites every
tracker and reschedules to 6), then B adds the same repository — and
`add_repo` (`telegram_bot.py:333`) unconditionally reschedules the shared
job to 24 while leaving A's configured interval at 6.  The effective poll
interval (24) is not the minimum (6) of the subscribers' intervals. -/
theorem c5_counterexample :
    let rel : Release := ⟨some 1, some "v1"⟩
    let s1 := add_repo ⟨[("A", []), ("B", [])], []⟩ "A" "o/r" (.ok rel) (.ok rel)
    let s2 := set_interval s1 "A" "o/r" 6
    let s3 := add_repo s2 "B" "o/r" (.ok rel) (.ok rel)
    (alGet ((alGet s3.users "A").getD []) "o/r").map RepoInfo.intervalHours
      = some 6 ∧
    (alGet ((alGet s3.users "B").getD []) "o/r").map RepoInfo.intervalHours
      = some 24 ∧
    alGet s3.jobs (jobId "o/r") = some 24 ∧ min 6 24 ≠ 24 := by decide

/-- C5 amended: neither variant derives a minimum.  In `telegram_bot.py`
the repository's single job simply runs at whatever interval the last
`schedule_repo_check` call installed: `set_interval` overwrites **every**
tracker's stored interval with the caller's new value and reschedules the
job to it (so no distinct intervals survive a `set_interval`), while
`add_repo` resets the shared job to 24h regardless of the other
subscribers' configured intervals. -/
theorem c5_interval_policy :
    (∀ (s : TgState) (uid repo : String) (hours : Nat),
        1 ≤ hours → hours ≤ 720 →
        (alGet ((alGet s.users uid).getD []) repo).isSome = true →
        alGet (set_interval s uid repo hours).jobs (jobId repo) = some hours ∧
        (∀ (u : String) (rs : UserRepos) (info : RepoInfo),
            alGet s.users u = some rs → alGet rs repo = some info →
            alGet ((alGet (set_interval s uid repo hours).users u).getD []) repo
              = some ⟨hours, info.lastReleaseId⟩)) ∧
    (∀ (s : TgState) (uid repo : String) (rel0 : Release)
        (latest : PollOutcome),
        alGet ((alGet s.users uid).getD []) repo = none →
        alGet (add_repo s uid repo (.ok rel0) latest).jobs (jobId repo)
          = some 24) := by
  refine ⟨?_, ?_⟩
  · intro s uid repo hours h1 h2 htrack
    constructor
    · simp [set_interval, h1, h2, htrack, alGet_schedule_self]
    · intro u rs info hu hrepo
      simp only [set_interval, h1, h2, and_self, if_true, htrack]
      rw [alGet_map_snd (setIntervalRepos repo hours) s.users u, hu]
      simp [setIntervalRepos, hrepo, alGet_alSet_self]
  · intro s uid repo rel0 latest h
    simp [add_repo, h, alGet_schedule_self]

/-- C5 witness: at a concrete two-subscriber state, `set_interval "A" 12`
reschedules the job to 12 and overwrites B's stored interval too, and a
fresh `add_repo` installs a 24h job. -/
theorem c5_witness :
    (alGet (set_interval ⟨[("A", [("o/r", ⟨6, some 1⟩)]),
        ("B", [("o/r", ⟨24, some 1⟩)])], [(jobId "o/r", 6)]⟩
        "A" "o/r" 12).jobs (jobId "o/r") = some 12 ∧
     alGet ((alGet (set_interval ⟨[("A", [("o/r", ⟨6, some 1⟩)]),
        ("B", [("o/r", ⟨24, some 1⟩)])], [(jobId "o/r", 6)]⟩
        "A" "o/r" 12).users "B").getD []) "o/r" = some ⟨12, some 1⟩) ∧
    alGet (add_repo ⟨[("A", [])], []⟩ "A" "o/r"
        (.ok ⟨some 1, some "v1"⟩) (.ok ⟨some 1, some "v1"⟩)).jobs (jobId "o/r")
      = some 24 := by
  have h := c5_interval_policy.1 ⟨[("A", [("o/r", ⟨6, some 1⟩)]),
      ("B", [("o/r", ⟨24, some 1⟩)])], [(jobId "o/r", 6)]⟩
      "A" "o/r" 12 (by decide) (by decide) (by decide)
  exact ⟨⟨h.1, h.2 "B" [("o/r", ⟨24, some 1⟩)] ⟨24, some 1⟩ (by decide) (by decide)⟩,
    c5_interval_policy.2 ⟨[("A", [])], []⟩ "A" "o/r" ⟨some 1, some "v1"⟩
      (.ok ⟨some 1, some "v1"⟩) (by decide)⟩

/-- C6 counterexample: one scan of `main.py`'s `check_all_repos`
(`main.py:730-752`) over two subscribers of the **same** repository
`o/r`, both due and both holding tokens, dispatches **two** outbound
fetches for that repository — refuting "exactly one outbound fetch to the
hosting platform is performed for that repository regardless of how many
subscribers track it". -/
theorem c6_counterexample :
    (check_all_cycle (fun _ => true) (fun _ => true)
        (fun _ => .ok ⟨some 7, some "v"⟩)
        [⟨"u1", "o/r"⟩, ⟨"u2", "o/r"⟩] []).fetches
      = [⟨"u1", "o/r"⟩, ⟨"u2", "o/r"⟩] := by decide

/-- C6 amended: only `telegram_bot.py` polls once per repository per due
cycle — the scheduler keeps exactly one job per repository
(`schedule_repo_check` reschedules an existing job instead of adding a
second), and each `check_releases` run consumes a single fetched outcome
and fans out in memory.  `main.py` instead dispatches one fetch per due
(subscriber, repository) **pair** holding a token, whatever each fetch
returns. -/
theorem c6_fetch_policy :
    (∀ (jobs : Jobs) (repo : String) (hours : Nat),
        countKey jobs (jobId repo) ≤ 1 →
        countKey (schedule_repo_check jobs repo hours) (jobId repo) = 1) ∧
    (∀ (hasToken : String → Bool) (due : Pair → Bool)
        (outcome : Pair → PollOutcome) (pairs : List Pair)
        (markers : List (String × Option String)),
        (check_all_cycle hasToken due outcome pairs markers).fetches
          = pairs.filter (fun p => due p && hasToken p.userId)) := by
  refine ⟨?_, check_all_cycle_fetches⟩
  intro jobs repo hours h
  unfold schedule_repo_check
  by_cases hj : (alGet jobs (jobId repo)).isSome = true
  · have hpos := countKey_pos_of_alGet_some jobs (jobId repo) hj
    simp [hj, countKey_alSet]
    omega
  · have h0 : alGet jobs (jobId repo) = none := by
      cases hx : alGet jobs (jobId repo) with
      | none => rfl
      | some v => simp [hx] at hj
    simp [hj, countKey_append_single, countKey_of_alGet_none jobs _ h0]

/-- C6 witness: scheduling an already scheduled repository keeps a single
job, and a concrete two-pair scan fetches once per pair. -/
theorem c6_witness :
    countKey (schedule_repo_check [(jobId "o/r", 6)] "o/r" 24) (jobId "o/r")
      = 1 ∧
    (check_all_cycle (fun u => u = "u1") (fun _ => true)
        (fun _ => .netError) [⟨"u1", "o/r"⟩, ⟨"u2", "o/r"⟩] []).fetches
      = [⟨"u1", "o/r"⟩] :=
  ⟨c6_fetch_policy.1 [(jobId "o/r", 6)] "o/r" 24 (by decide),
   (c6_fetch_policy.2 (fun u => u = "u1") (fun _ => true)
      (fun _ => .netError) [⟨"u1", "o/r"⟩, ⟨"u2", "o/r"⟩] []).trans (by decide)⟩

/-- C8 counterexample: in `check_now_user` (`telegram_bot.py:219-249`) an
HTTP 401 on the first repository sends a "token invalid" message and
`return`s: the second repository — which has a new release (id 2 ≠ stored
1) waiting — is never examined (`unprocessed = 1`, no notification, its
marker untouched), refuting "an error (including an auth failure) on one
repository does not abort the check of the subscriber's remaining
repositories". -/
theorem c8_counterexample :
    check_now_user [(("o/r1", none), .httpStatus 401),
                    (("o/r2", some 1), .ok ⟨some 2, some "v"⟩)]
      = ⟨[("o/r1", none), ("o/r2", some 1)], [], 0, true, 1⟩ := by decide

/-- C8 amended: repository-level error isolation holds in `main.py`'s
scheduled scan — the set of pairs fetched (and hence visited) by one
`check_all_repos` cycle is independent of what every individual fetch
returns, because `check_repo_updates` catches every exception internally —
and in `check_now_user` for every outcome except an HTTP 401: when no
repository's fetch returns 401, the manual check examines every
repository of the subscriber. -/
theorem c8_scan_isolation :
    (∀ (hasToken : String → Bool) (due : Pair → Bool)
        (outcome outcome' : Pair → PollOutcome) (pairs : List Pair)
        (markers markers' : List (String × Option String)),
        (check_all_cycle hasToken due outcome pairs markers).fetches
          = (check_all_cycle hasToken due outcome' pairs markers').fetches) ∧
    (∀ l : List ((String × Option Nat) × PollOutcome),
        (∀ e ∈ l, e.2 ≠ PollOutcome.httpStatus 401) →
        (check_now_user l).tokenAbort = false ∧
        (check_now_user l).unprocessed = 0) := by
  refine ⟨?_, ?_⟩
  · intro hasToken due outcome outcome' pairs markers markers'
    rw [check_all_cycle_fetches, check_all_cycle_fetches]
  · intro l
    induction l with
    | nil => intro _; simp [check_now_user]
    | cons e rest ih =>
      intro h
      obtain ⟨⟨repo, marker⟩, outcome⟩ := e
      have hrest : ∀ e ∈ rest, e.2 ≠ PollOutcome.httpStatus 401 :=
        fun e he => h e (List.mem_cons_of_mem _ he)
      have hhead : (PollOutcome.httpStatus 401 : PollOutcome) ≠ outcome := by
        intro hq
        exact (h _ (List.mem_cons_self _ _)) hq.symm
      cases outcome with
      | ok rel =>
        by_cases hc : truthyOptNat rel.id = true ∧ rel.id ≠ marker
        · simp [check_now_user, hc, ih hrest]
        · simp [check_now_user, hc, ih hrest]
      | netError => simp [check_now_user, ih hrest]
      | httpStatus code =>
        have hc : code ≠ 401 := by
          intro hq
          exact hhead (by rw [hq])
        simp [check_now_user, hc, ih hrest]

/-- C8 witness: with no 401 among a concrete mix of failures (404,
network error, one success), the manual check processes everything; and
two scans differing in every outcome fetch the same pairs. -/
theorem c8_witness :
    ((check_now_user [(("o/r1", none), .httpStatus 404),
        (("o/r2", some 1), .netError),
        (("o/r3", some 1), .ok ⟨some 2, some "v"⟩)]).tokenAbort = false ∧
     (check_now_user [(("o/r1", none), .httpStatus 404),
        (("o/r2", some 1), .netError),
        (("o/r3", some 1), .ok ⟨some 2, some "v"⟩)]).unprocessed = 0) ∧
    (check_all_cycle (fun _ => true) (fun _ => true) (fun _ => .netError)
        [⟨"u1", "o/r"⟩] []).fetches
      = (check_all_cycle (fun _ => true) (fun _ => true)
          (fun _ => .ok ⟨some 7, some "v"⟩) [⟨"u1", "o/r"⟩] []).fetches :=
  ⟨c8_scan_isolation.2 [(("o/r1", none), .httpStatus 404),
      (("o/r2", some 1), .netError),
      (("o/r3", some 1), .ok ⟨some 2, some "v"⟩)] (by decide),
   c8_scan_isolation.1 (fun _ => true) (fun _ => true) (fun _ => .netError)
      (fun _ => .ok ⟨some 7, some "v"⟩) [⟨"u1", "o/r"⟩] [] []⟩

/-- C9 counterexample: in `telegram_bot.py`, after deleting `o/r`
(`handle_delete_repo` purges the whole record) the user re-adds it — and
`add_repo` (`telegram_bot.py:318-331`) initializes the new subscription's
marker to the **currently fetched** latest release id `7`, not to null,
refuting "a later re-add of the same repository by the same subscriber
starts with marker null". -/
theorem c9_counterexample :
    let s0 : TgState :=
      ⟨[("A", [("o/r", ⟨24, some 3⟩)])], [(jobId "o/r", 24)]⟩
    let s1 := handle_delete_repo s0 "A" "o/r"
    let s2 := add_repo s1 "A" "o/r" (.ok ⟨some 7, some "v2"⟩)
      (.ok ⟨some 7, some "v2"⟩)
    alGet ((alGet s1.users "A").getD []) "o/r" = none ∧
    alGet ((alGet s2.users "A").getD []) "o/r" = some ⟨24, some 7⟩ := by decide

/-- C9 amended: deletion does purge all per-pair state in both variants —
`main.py` pops the interval and the last-seen marker and a re-add starts
with marker null and interval 24, while `telegram_bot.py` deletes the
whole repo record but its re-add pre-initializes the marker to the
currently fetched latest release id (null exactly when that fetch found
no release). -/
theorem c9_delete_readd :
    (∀ (s : MainState) (uid repo : String) (lst : List String),
        alGet s.repos uid = some lst → repo ∈ lst → repo ∉ lst.erase repo →
        alGet (main_delete_repo s uid repo).check_intervals (mkey uid repo)
          = none ∧
        alGet (main_delete_repo s uid repo).last_releases (mkey uid repo)
          = none ∧
        alGet (main_add_repo (main_delete_repo s uid repo) uid repo).last_releases
          (mkey uid repo) = none ∧
        alGet (main_add_repo (main_delete_repo s uid repo) uid repo).check_intervals
          (mkey uid repo) = some 24) ∧
    (∀ (s : TgState) (uid repo : String) (rel0 : Release)
        (latest : PollOutcome) (urepos : UserRepos),
        alGet s.users uid = some urepos → (alGet urepos repo).isSome = true →
        alGet ((alGet (handle_delete_repo s uid repo).users uid).getD []) repo
          = none ∧
        alGet ((alGet (add_repo (handle_delete_repo s uid repo) uid repo
            (.ok rel0) latest).users uid).getD []) repo
          = some ⟨24, fetchedLatestId latest⟩) := by
  refine ⟨?_, ?_⟩
  · intro s uid repo lst hu hmem hnot
    have hd : main_delete_repo s uid repo
        = ⟨alSet s.repos uid (lst.erase repo),
           alPop s.check_intervals (mkey uid repo),
           alPop s.last_releases (mkey uid repo)⟩ := by
      simp [main_delete_repo, hu, hmem]
    rw [hd]
    refine ⟨alGet_alPop_self _ _, alGet_alPop_self _ _, ?_, ?_⟩
    · simp [main_add_repo, alGet_alSet_self, hnot, alGet_alPop_self]
    · simp [main_add_repo, alGet_alSet_self, hnot, alGet_alPop_self]
  · intro s uid repo rel0 latest urepos hu hsome
    have hd : handle_delete_repo s uid repo
        = ⟨alSet s.users uid (alPop urepos repo),
           if is_repo_tracked_by_anyone (alSet s.users uid (alPop urepos repo))
               repo
           then s.jobs else alPop s.jobs (jobId repo)⟩ := by
      simp [handle_delete_repo, hu, hsome]
    rw [hd]
    refine ⟨?_, ?_⟩
    · simp [alGet_alSet_self, alGet_alPop_self]
    · simp [add_repo, alGet_alSet_self, alGet_alPop_self]

/-- C9 witness: a concrete delete in each variant purges the pair's
state, and a concrete re-add shows `main.py` restarting from null while
`telegram_bot.py` restarts from the fetched id. -/
theorem c9_witness :
    (alGet (main_delete_repo ⟨[("A", ["o/r"])], [(mkey "A" "o/r", 6)],
        [(mkey "A" "o/r", some "v1")]⟩ "A" "o/r").last_releases
        (mkey "A" "o/r") = none ∧
     alGet (main_add_repo (main_delete_repo ⟨[("A", ["o/r"])],
        [(mkey "A" "o/r", 6)], [(mkey "A" "o/r", some "v1")]⟩ "A" "o/r")
        "A" "o/r").last_releases (mkey "A" "o/r") = none) ∧
    alGet ((alGet (add_repo (handle_delete_repo
        ⟨[("A", [("o/r", ⟨24, some 3⟩)])], [(jobId "o/r", 24)]⟩ "A" "o/r")
        "A" "o/r" (.ok ⟨some 7, some "v2"⟩)
        (.httpStatus 404)).users "A").getD []) "o/r" = some ⟨24, none⟩ := by
  have h1 := c9_delete_readd.1 ⟨[("A", ["o/r"])], [(mkey "A" "o/r", 6)],
      [(mkey "A" "o/r", some "v1")]⟩ "A" "o/r" ["o/r"]
      (by decide) (by decide) (by decide)
  have h2 := c9_delete_readd.2 ⟨[("A", [("o/r", ⟨24, some 3⟩)])],
      [(jobId "o/r", 24)]⟩ "A" "o/r" ⟨some 7, some "v2"⟩ (.httpStatus 404)
      [("o/r", ⟨24, some 3⟩)] (by decide) (by decide)
  exact ⟨⟨h1.2.1, h1.2.2.1⟩, h2.2⟩

end GRMTB
